import Mathlib

/-!
Shallow embedding of `multiprocess_profiler/profiler.py` (the `Profiler`
class).  Clock reads are modelled as rationals supplied from outside
(`time.time()` results become explicit parameters), the CSV record file is
modelled at row granularity as a `List Entry`, and every exception a method
can raise is modelled as the `ProfileError` message string the source
passes (or, for propagated third-party exceptions such as `psutil`
lookups, the propagated exception rendered as a string).
-/

namespace MPProfiler

/-- A Python exception raised inside the measured region: its type, value and
formatted traceback, each rendered as a string. -/
structure ExcInfo where
  type : String
  value : String
  trace : String
  deriving DecidableEq

/-- One row's worth of data written by `Profiler.__exit__` (profiler.py line
165): `[self.__id, measured_time, pid, ppid, pname, ppname, broken, exc_type,
exc_value, traceback.format_exc()]`.  `exc_type`/`exc_value` are `None` when
no exception was active, hence `Option String`; the traceback column is the
result of `traceback.format_exc()`, which is always a string. -/
structure Record where
  id : Option String
  time : ℚ
  pid : ℕ
  ppid : ℕ
  process_name : String
  parent_process_name : String
  broken : Bool
  error_type : Option String
  error_value : Option String
  traceback : String
  deriving DecidableEq

/-- A row of the record file: either the fixed header row (profiler.py line
97) or a data row. -/
inductive Entry
  | header
  | data (r : Record)
  deriving DecidableEq

/-- `traceback.format_exc()`: the formatted active exception, or the string
Python produces when no exception is being handled. -/
def format_exc : Option ExcInfo → String
  | some e => e.trace
  | none => "NoneType: None\n"

/-- The mutable attributes of a `Profiler` instance (profiler.py lines
90-108): `__id` (mutated by autonaming), `__started`, `__reference_time`,
`__is_paused`, `__paused_time`, `__pause_reference`, `__finished`. -/
structure TimerState where
  id : Option String
  started : Bool
  reference_time : ℚ
  is_paused : Bool
  paused_time : ℚ
  pause_reference : ℚ
  finished : Bool
  deriving DecidableEq

/-- The immutable configuration of a `Profiler` instance (profiler.py
lines 76-95).  `log_function` is kept as data for configuration claims; its
success or failure at a given call is supplied through `ExitCtx` because the
exact formatted message (float formatting) is not modelled. -/
structure Config where
  timeout : ℚ
  ignore_timeout : Bool
  verbose : Bool
  log_function : String → Except String Unit
  allow_formating : Bool
  result_path : String
  autonaming : Bool

/-- The default `log_function`, Python's `print` (assumed not to raise). -/
def printLog : String → Except String Unit := fun _ => .ok ()

/-- `Profiler.__reset_attributes` (profiler.py lines 103-108): resets the
lifecycle fields; it does not touch `__id` or `__finished`. -/
def resetAttributes (s : TimerState) : TimerState :=
  { s with started := false, reference_time := 0, is_paused := false,
           paused_time := 0, pause_reference := 0 }

/-- `Profiler.__init__` (profiler.py lines 76-101): clamps `timeout` to ≥ 0,
stores the configuration, and initialises the mutable state via
`__reset_attributes` plus `__finished = False` and `__id = id_`. -/
def profilerInit (id_ : Option String) (timeout : ℚ) (ignore_timeout : Bool)
    (verbose : Bool) (log_function : String → Except String Unit)
    (allow_formating : Bool) (result_path : String) (autonaming : Bool) :
    Config × TimerState :=
  (⟨if timeout > 0 then timeout else 0, ignore_timeout, verbose, log_function,
    allow_formating, result_path, autonaming⟩,
   ⟨id_, false, 0, false, 0, 0, false⟩)

/-- A `Profiler` built with every argument at its Python default
(profiler.py lines 76-84): `timeout=10`, `ignore_timeout=True`,
`verbose=False`, `log_function=print`, `allow_formating=True`,
`result_path="profile"`, `autonaming=True`. -/
def defaultProfiler (id_ : Option String) : Config × TimerState :=
  profilerInit id_ 10 true false printLog true "profile" true

/-- `Profiler.__enter__` (profiler.py lines 110-115).  Returns the new state
and the raised `ProfileError` message if any; on a raise the state is
unchanged. -/
def enter (t : ℚ) (s : TimerState) : TimerState × Option String :=
  if s.started then (s, some "Profiler is already started")
  else ({ s with started := true, finished := false, reference_time := t }, none)

/-- `Profiler.pause` (profiler.py lines 203-208).  Note the source mutates
`__pause_reference` before the not-started check, so that mutation survives
the raise. -/
def pause (t : ℚ) (s : TimerState) : TimerState × Option String :=
  if s.is_paused then (s, none)
  else
    let s' := { s with pause_reference := t }
    if s'.started then ({ s' with is_paused := true }, none)
    else (s', some "Can't pause profiler if it is not running")

/-- `Profiler.resume` (profiler.py lines 210-215). -/
def resume (t : ℚ) (s : TimerState) : TimerState × Option String :=
  if s.started then
    if s.is_paused then
      ({ s with paused_time := s.paused_time + (t - s.pause_reference),
                is_paused := false }, none)
    else (s, none)
  else (s, some "Can't resume if profiler if it was not started")

/-- `self.__id = inspect.stack()[...].function` wrapped in the bare
`try/except` of profiler.py lines 127-130. -/
def autoName : Except String String → String
  | .ok n => n
  | .error _ => "Failed Autonaming"

/-- The environment one call of `Profiler.__exit__` runs in: the two clock
reads it can perform (line 214 via the implicit `resume`, then line 124),
the process identity, the outcomes of the two `psutil` name lookups (lines
134-135, which the source does not guard), the stack-derived name for
autonaming, whether the configured log function returns normally on each of
the two messages it may be given, and whether the file lock is acquired
within the timeout. -/
structure ExitCtx where
  t_resume : ℚ
  t_mes : ℚ
  pid : ℕ
  ppid : ℕ
  pname : Except String String
  ppname : Except String String
  stackName : Except String String
  logOk : Bool
  logTimeoutOk : Bool
  lockOk : Bool

/-- Result of one `Profiler.__exit__` call: the instance state afterwards
(partial mutations survive a raise, as in Python), the raised exception
message if any, the record file afterwards, and the method's return value
(`False` on line 185, meaning a region exception is never suppressed). -/
structure ExitOut where
  state : TimerState
  err : Option String
  file : List Entry
  ret : Bool
  deriving DecidableEq

/-- The CSV append protocol of profiler.py lines 153-165 at row granularity:
open for append, write the header first iff the file is currently empty,
then append exactly one data row.  Pre-existing rows are never touched
(append mode). -/
def sinkAppend (file : List Entry) (r : Record) : List Entry :=
  if file = [] then file ++ [Entry.header, Entry.data r]
  else file ++ [Entry.data r]

/-- Line 123 of `__exit__`: the state after the implicit `resume` that runs
when the instance is still paused. -/
def exitS1 (ctx : ExitCtx) (s : TimerState) : TimerState :=
  if s.is_paused then (resume ctx.t_resume s).1 else s

/-- `measured_time` of `__exit__` (profiler.py line 124): clock read minus
reference time minus accumulated paused time (after the implicit resume). -/
def measuredTime (ctx : ExitCtx) (s : TimerState) : ℚ :=
  ctx.t_mes - (exitS1 ctx s).reference_time - (exitS1 ctx s).paused_time

/-- Lines 126-130 of `__exit__`: autonaming mutates `__id` when it is unset
and autonaming is enabled. -/
def exitS2 (cfg : Config) (ctx : ExitCtx) (s : TimerState) : TimerState :=
  let s1 := exitS1 ctx s
  if s1.id.isNone && cfg.autonaming
  then { s1 with id := some (autoName ctx.stackName) } else s1

/-- The data row `__exit__` writes on profiler.py line 165, given the two
successful process-name lookups `pn`/`ppn`. -/
def exitRecord (cfg : Config) (ctx : ExitCtx) (exc : Option ExcInfo)
    (s : TimerState) (pn ppn : String) : Record :=
  ⟨(exitS2 cfg ctx s).id, measuredTime ctx s, ctx.pid, ctx.ppid, pn, ppn,
   exc.isSome, exc.map ExcInfo.type, exc.map ExcInfo.value, format_exc exc⟩

/-- `Profiler.__exit__` (profiler.py lines 121-185), with `exc` the exception
(if any) propagating out of the measured region.  Control flow in source
order: not-started check; implicit `resume` if paused; `measured_time`;
`broken`; autonaming; pid/ppid and the two unguarded `psutil` name lookups;
verbose logging (a log failure raises a `ProfileError`); lock acquisition —
on success the CSV append, on timeout either a `ProfileError` (when
`ignore_timeout` is false) or a verbose warning and a normal return; finally
`__reset_attributes`, `__finished = True`, `return False`. -/
def exitP (cfg : Config) (ctx : ExitCtx) (exc : Option ExcInfo)
    (s : TimerState) (file : List Entry) : ExitOut :=
  if s.started then
    let s2 := exitS2 cfg ctx s
    match ctx.pname with
    | .error m => ⟨s2, some m, file, false⟩
    | .ok pn =>
      match ctx.ppname with
      | .error m => ⟨s2, some m, file, false⟩
      | .ok ppn =>
        if cfg.verbose && !ctx.logOk then
          ⟨s2, some "Exception raised while calling the log function", file, false⟩
        else if ctx.lockOk then
          ⟨{ resetAttributes s2 with finished := true }, none,
           sinkAppend file (exitRecord cfg ctx exc s pn ppn), false⟩
        else if !cfg.ignore_timeout then
          ⟨s2, some "Timed out waiting for csv lock", file, false⟩
        else if cfg.verbose && !ctx.logTimeoutOk then
          ⟨s2, some "Exception raised while calling the log function after a lock timeout",
           file, false⟩
        else
          ⟨{ resetAttributes s2 with finished := true }, none, file, false⟩
  else ⟨s, some "Profiler was not started", file, false⟩

/-- Outcome of a `with Profiler(...)` statement for the enclosing caller. -/
inductive WithOutcome (α : Type)
  | val (a : α)
  | raised (e : ExcInfo)
  | profErr (m : String)
  | suppressed
  deriving DecidableEq

/-- Python `with` semantics over `enter`/`exitP`: run `__enter__`; run the
body; run `__exit__` with the body's exception info (if any).  An exception
raised by `__enter__` or `__exit__` propagates as a `ProfileError`; otherwise
the body's exception is re-raised iff `__exit__` returned a falsy value. -/
def runWith {α : Type} (cfg : Config) (t0 : ℚ) (ctx : ExitCtx)
    (s : TimerState) (file : List Entry) (body : Except ExcInfo α) :
    WithOutcome α × List Entry :=
  match enter t0 s with
  | (_, some m) => (.profErr m, file)
  | (s1, none) =>
    match body with
    | .ok v =>
      let o := exitP cfg ctx none s1 file
      match o.err with
      | some m => (.profErr m, o.file)
      | none => (.val v, o.file)
    | .error e =>
      let o := exitP cfg ctx (some e) s1 file
      match o.err with
      | some m => (.profErr m, o.file)
      | none => (if o.ret then .suppressed else .raised e, o.file)

/-- The wrap-time step of `Profiler.__call__` (profiler.py lines 188-191):
if `self.__id` is unset and autonaming is on, set it to `f.__qualname__`.
Returns the wrapping instance's updated state and the id every invocation of
the wrapper will use (`self.__id` is read back on line 193 and can no longer
change after this point). -/
def callWrap (cfg : Config) (s : TimerState) (fqualname : String) :
    TimerState × Option String :=
  if s.id.isNone && cfg.autonaming then
    ({ s with id := some fqualname }, some fqualname)
  else (s, s.id)

/-- The fresh profiler `Profiler(self.__id)` built inside `wrapper`
(profiler.py line 193): only the id is passed, every other argument takes
its Python default. -/
def wrapperProfiler (wrapId : Option String) : Config × TimerState :=
  profilerInit wrapId 10 true false printLog true "profile" true

/-- One invocation of the `wrapper` closure (profiler.py lines 192-195):
build a fresh `Profiler(self.__id)`, run the wrapped callable's body inside
a `with` statement, and return its result (or let its exception propagate
after `__exit__` ran). -/
def wrapperInvoke {α : Type} (wrapId : Option String) (t0 : ℚ) (ctx : ExitCtx)
    (file : List Entry) (body : Except ExcInfo α) : WithOutcome α × List Entry :=
  let (cfg, s) := wrapperProfiler wrapId
  runWith cfg t0 ctx s file body

/-- Index of the last occurrence of `a` in a list of characters, if any
(Python's `str.rfind` restricted to found/not-found). -/
def rfindChar (a : Char) : List Char → Option ℕ
  | [] => none
  | c :: cs =>
    match rfindChar a cs with
    | some i => some (i + 1)
    | none => if c = a then some 0 else none

/-- Where the final path component starts: one past the last `'/'`, or `0`
when the path contains no separator. -/
def sepSplit (cs : List Char) : ℕ :=
  match rfindChar '/' cs with
  | some i => i + 1
  | none => 0

/-- `PurePath.name`: the final path component (everything after the last
separator). -/
def baseName (cs : List Char) : List Char :=
  cs.drop (sepSplit cs)

/-- Length of `PurePath.suffix` of a final path component: the portion from
the component's last dot, provided that dot is neither the component's
first nor last character; otherwise the suffix is empty. -/
def pySuffixLen (cs : List Char) : ℕ :=
  match rfindChar '.' cs with
  | none => 0
  | some i => if 0 < i ∧ i + 1 < cs.length then cs.length - i else 0

/-- `PurePath.with_suffix`, as used on profiler.py line 153: keep everything
up to the final component, drop that component's current suffix (if any) and
append the new one.  `Path(...)`'s textual normalization of redundant
separators and `'.'` components (which does not change the file a path
denotes) is not modelled; paths whose final component is empty or `"."`
(where Python raises or normalizes the component away) are outside the
model, and theorems about suffix-less paths exclude them by hypothesis. -/
def with_suffix (p suf : String) : String :=
  let cs := p.data
  ⟨cs.take (sepSplit cs) ++
    ((baseName cs).take ((baseName cs).length - pySuffixLen (baseName cs)) ++ suf.data)⟩

/-- The file `Profiler.__exit__` actually opens (profiler.py line 153):
`self.__result_path.with_suffix(".csv")`. -/
def writtenPath (cfg : Config) : String :=
  with_suffix cfg.result_path ".csv"

/-- Run a sequence of completed pause/resume cycles: for each pair `(p, r)`,
call `pause` at clock time `p` and then `resume` at clock time `r`. -/
def runPairs (s : TimerState) : List (ℚ × ℚ) → TimerState
  | [] => s
  | pr :: rest => runPairs ((resume pr.2 ((pause pr.1 s).1)).1) rest

/-- Total length of a list of pause intervals. -/
def sumIntervals : List (ℚ × ℚ) → ℚ
  | [] => 0
  | pr :: rest => (pr.2 - pr.1) + sumIntervals rest

/-- The clock reads `a, p₁, r₁, p₂, r₂, …, b` are monotone non-decreasing:
`a ≤ p₁ ≤ r₁ ≤ p₂ ≤ … ≤ b`. -/
def monoFrom (a : ℚ) : List (ℚ × ℚ) → ℚ → Prop
  | [], b => a ≤ b
  | pr :: rest, b => a ≤ pr.1 ∧ pr.1 ≤ pr.2 ∧ monoFrom pr.2 rest b

/-- Optionally leave one pause still open: call `pause` at clock time `p`
when `op = some p`, do nothing when `op = none`. -/
def pauseOpt (op : Option ℚ) (s : TimerState) : TimerState :=
  match op with
  | none => s
  | some p => (pause p s).1

/-- The pause interval contributed by a pause left open at `p` and
implicitly resumed by `end()` at clock time `tr`: `[(p, tr)]`, or nothing
when no pause is open. -/
def openList (op : Option ℚ) (tr : ℚ) : List (ℚ × ℚ) :=
  match op with
  | none => []
  | some p => [(p, tr)]

/-- Whether a row of the record file is the header row. -/
def Entry.isHeader : Entry → Bool
  | .header => true
  | .data _ => false

/-- The timer state reached by `begin()` at `t0`, the completed pause/resume
pairs `ps`, and optionally (`op`) one final pause left open, starting from a
freshly constructed instance with id `idv`. -/
def traceState (idv : Option String) (t0 : ℚ) (ps : List (ℚ × ℚ))
    (op : Option ℚ) : TimerState :=
  pauseOpt op (runPairs ((enter t0 ⟨idv, false, 0, false, 0, 0, false⟩).1) ps)

/-- The record one invocation of the decorator's `wrapper` writes: the
fresh profiler `Profiler(self.__id)` is entered at `t0` and exited under
`ctx` with the region outcome `exc`. -/
def wrapperRecord (wrapId : Option String) (t0 : ℚ) (ctx : ExitCtx)
    (exc : Option ExcInfo) (pn ppn : String) : Record :=
  exitRecord (wrapperProfiler wrapId).1 ctx exc
    ((enter t0 (wrapperProfiler wrapId).2).1) pn ppn

theorem sumIntervals_append (ps qs : List (ℚ × ℚ)) :
    sumIntervals (ps ++ qs) = sumIntervals ps + sumIntervals qs := by
  induction ps with
  | nil => simp [sumIntervals]
  | cons pr rest ih => simp [sumIntervals, ih]; ring

theorem sumIntervals_le_of_monoFrom (ps : List (ℚ × ℚ)) :
    ∀ a b : ℚ, monoFrom a ps b → sumIntervals ps ≤ b - a := by
  induction ps with
  | nil =>
    intro a b h
    simp only [monoFrom] at h
    simp [sumIntervals]
    linarith
  | cons pr rest ih =>
    intro a b h
    obtain ⟨h1, h2, h3⟩ := h
    have := ih pr.2 b h3
    simp only [sumIntervals]
    linarith

/-- Effect of `runPairs` on a started, unpaused state: it stays started and
unpaused, keeps its reference time, id and finished flag, and accumulates
exactly the summed pause intervals into `paused_time`. -/
theorem runPairs_spec (ps : List (ℚ × ℚ)) :
    ∀ s : TimerState, s.started = true → s.is_paused = false →
    (runPairs s ps).started = true ∧ (runPairs s ps).is_paused = false ∧
    (runPairs s ps).reference_time = s.reference_time ∧
    (runPairs s ps).paused_time = s.paused_time + sumIntervals ps ∧
    (runPairs s ps).id = s.id ∧ (runPairs s ps).finished = s.finished := by
  induction ps with
  | nil =>
    intro s hs hp
    simp [runPairs, sumIntervals, hs, hp]
  | cons pr rest ih =>
    intro s hs hp
    set s' : TimerState :=
      { s with pause_reference := pr.1,
               paused_time := s.paused_time + (pr.2 - pr.1),
               is_paused := false } with hdef
    have hstep : (resume pr.2 ((pause pr.1 s).1)).1 = s' := by
      simp [pause, resume, hp, hs, hdef]
    have h2 := ih s' (by simp [hdef, hs]) (by simp [hdef])
    simp only [runPairs, hstep, sumIntervals]
    refine ⟨h2.1, h2.2.1, ?_, ?_, ?_, ?_⟩
    · rw [h2.2.2.1]
    · rw [h2.2.2.2.1]; simp only [hdef]; ring
    · rw [h2.2.2.2.2.1]
    · rw [h2.2.2.2.2.2]

/-- When `__exit__` returns normally, the instance is back in the
not-started, not-paused state (`__reset_attributes` ran). -/
theorem exitP_resets_of_err_none (cfg : Config) (ctx : ExitCtx)
    (exc : Option ExcInfo) (s : TimerState) (file : List Entry) :
    (exitP cfg ctx exc s file).err ≠ none ∨
    ((exitP cfg ctx exc s file).state.started = false ∧
     (exitP cfg ctx exc s file).state.is_paused = false ∧
     (exitP cfg ctx exc s file).state.finished = true) := by
  unfold exitP
  repeat' split
  all_goals simp [resetAttributes]

/-- C3: `begin()` on a started, unfinished timer fails with the
`AlreadyStarted` error (`ProfileError "Profiler is already started"`), and
`pause()`, `resume()` and `end()` on a timer in the not-started state (never
begun, or reset by a completed cycle, hence also unpaused) fail with the
`NotStarted` errors; moreover a completed `end()` puts the timer back into
the not-started, unpaused state. -/
theorem C3_lifecycle_guards :
    (∀ (t : ℚ) (s : TimerState), s.started = true →
      enter t s = (s, some "Profiler is already started")) ∧
    (∀ (t : ℚ) (s : TimerState), s.started = false → s.is_paused = false →
      (pause t s).2 = some "Can't pause profiler if it is not running") ∧
    (∀ (t : ℚ) (s : TimerState), s.started = false →
      resume t s = (s, some "Can't resume if profiler if it was not started")) ∧
    (∀ (cfg : Config) (ctx : ExitCtx) (exc : Option ExcInfo) (s : TimerState)
      (file : List Entry), s.started = false →
      exitP cfg ctx exc s file = ⟨s, some "Profiler was not started", file, false⟩) ∧
    (∀ (cfg : Config) (ctx : ExitCtx) (exc : Option ExcInfo) (s : TimerState)
      (file : List Entry), (exitP cfg ctx exc s file).err = none →
      (exitP cfg ctx exc s file).state.started = false ∧
      (exitP cfg ctx exc s file).state.is_paused = false) := by
  refine ⟨?_, ?_, ?_, ?_, ?_⟩
  · intro t s hs; simp [enter, hs]
  · intro t s hs hp; simp [pause, hs, hp]
  · intro t s hs; simp [resume, hs]
  · intro cfg ctx exc s file hs; simp [exitP, hs]
  · intro cfg ctx exc s file h
    rcases exitP_resets_of_err_none cfg ctx exc s file with hne | hok
    · exact absurd h hne
    · exact ⟨hok.1, hok.2.1⟩

/-- Concrete instances of `C3_lifecycle_guards`: a started timer rejects
`begin()`; a fresh timer rejects `pause()`, `resume()` and `end()`; and a
completed cycle is back in the not-started state. -/
theorem C3_lifecycle_guards_witness :
    (enter 2 ⟨some "x", true, 0, false, 0, 0, false⟩ =
      (⟨some "x", true, 0, false, 0, 0, false⟩, some "Profiler is already started")) ∧
    ((pause 2 ⟨some "x", false, 0, false, 0, 0, false⟩).2 =
      some "Can't pause profiler if it is not running") ∧
    (resume 2 ⟨some "x", false, 0, false, 0, 0, false⟩ =
      (⟨some "x", false, 0, false, 0, 0, false⟩,
       some "Can't resume if profiler if it was not started")) ∧
    (exitP (defaultProfiler (some "x")).1
      ⟨0, 1, 42, 7, .ok "python", .ok "bash", .ok "f", true, true, true⟩ none
      ⟨some "x", false, 0, false, 0, 0, false⟩ [] =
      ⟨⟨some "x", false, 0, false, 0, 0, false⟩, some "Profiler was not started", [], false⟩) ∧
    ((exitP (defaultProfiler (some "x")).1
      ⟨0, 1, 42, 7, .ok "python", .ok "bash", .ok "f", true, true, true⟩ none
      ⟨some "x", true, 0, false, 0, 0, false⟩ []).state.started = false ∧
     (exitP (defaultProfiler (some "x")).1
      ⟨0, 1, 42, 7, .ok "python", .ok "bash", .ok "f", true, true, true⟩ none
      ⟨some "x", true, 0, false, 0, 0, false⟩ []).state.is_paused = false) :=
  ⟨C3_lifecycle_guards.1 2 _ rfl,
   C3_lifecycle_guards.2.1 2 _ rfl rfl,
   C3_lifecycle_guards.2.2.1 2 _ rfl,
   C3_lifecycle_guards.2.2.2.1 _ _ none _ [] rfl,
   C3_lifecycle_guards.2.2.2.2 _ _ none _ [] (by decide)⟩

/-- C9: on a started timer, `resume()` when not paused returns the state
completely unchanged (including accumulated paused time), and a second
`resume()` immediately after a first one changes nothing more. -/
theorem C9_resume_noop_idempotent (t t1 t2 : ℚ) (s : TimerState)
    (hs : s.started = true) :
    (s.is_paused = false → resume t s = (s, none)) ∧
    (resume t2 ((resume t1 s).1)).1 = (resume t1 s).1 := by
  constructor
  · intro hp; simp [resume, hs, hp]
  · by_cases hp : s.is_paused
    · simp [resume, hs, hp]
    · simp [resume, hs, hp]

/-- Concrete instances of `C9_resume_noop_idempotent`: `resume` at time 2 on
a started, unpaused timer is the identity, and on a started, paused timer a
second `resume` at time 3 after one at time 2 changes nothing. -/
theorem C9_resume_noop_idempotent_witness :
    (resume 2 ⟨some "x", true, 0, false, 5, 1, false⟩ =
      (⟨some "x", true, 0, false, 5, 1, false⟩, none)) ∧
    (resume 3 ((resume 2 ⟨some "x", true, 0, true, 5, 1, false⟩).1)).1 =
      (resume 2 ⟨some "x", true, 0, true, 5, 1, false⟩).1 :=
  ⟨(C9_resume_noop_idempotent 2 0 0 _ rfl).1 rfl,
   (C9_resume_noop_idempotent 0 2 3 _ rfl).2⟩

/-- C10: the per-invocation profiler built by the decorator wrapper receives
only the wrap-time id; every other construction option takes its Python
default regardless of how the wrapping profiler was configured, so a
non-default `result_path` or `verbose` flag on the wrapping profiler has no
effect on wrapped invocations. -/
theorem C10_wrapper_config_defaults (cfg : Config) (s : TimerState) (fq : String) :
    (wrapperProfiler ((callWrap cfg s fq).2)).1 =
      ⟨10, true, false, printLog, true, "profile", true⟩ ∧
    (wrapperProfiler ((callWrap cfg s fq).2)).2 =
      ⟨(callWrap cfg s fq).2, false, 0, false, 0, 0, false⟩ ∧
    (cfg.result_path ≠ "profile" →
      (wrapperProfiler ((callWrap cfg s fq).2)).1.result_path ≠ cfg.result_path) ∧
    (cfg.verbose = true →
      (wrapperProfiler ((callWrap cfg s fq).2)).1.verbose ≠ cfg.verbose) := by
  refine ⟨?_, ?_, ?_, ?_⟩
  · simp [wrapperProfiler, profilerInit]
  · simp [wrapperProfiler, profilerInit]
  · intro hne
    simp only [wrapperProfiler, profilerInit]
    norm_num
    exact fun h => hne h.symm
  · intro hv
    simp [wrapperProfiler, profilerInit, hv]

/-- Concrete instance of `C10_wrapper_config_defaults`: a wrapping profiler
with `result_path = "elsewhere"` and `verbose = True` still yields
per-invocation profilers writing to the default path, non-verbose. -/
theorem C10_wrapper_config_defaults_witness :
    (wrapperProfiler ((callWrap ⟨5, false, true, printLog, false, "elsewhere", false⟩
        ⟨some "w", false, 0, false, 0, 0, false⟩ "f").2)).1 =
      ⟨10, true, false, printLog, true, "profile", true⟩ ∧
    (wrapperProfiler ((callWrap ⟨5, false, true, printLog, false, "elsewhere", false⟩
        ⟨some "w", false, 0, false, 0, 0, false⟩ "f").2)).1.result_path ≠ "elsewhere" ∧
    (wrapperProfiler ((callWrap ⟨5, false, true, printLog, false, "elsewhere", false⟩
        ⟨some "w", false, 0, false, 0, 0, false⟩ "f").2)).1.verbose ≠ true :=
  ⟨(C10_wrapper_config_defaults _ _ "f").1,
   (C10_wrapper_config_defaults _ _ "f").2.2.1 (by decide),
   (C10_wrapper_config_defaults _ _ "f").2.2.2 rfl⟩

/-- C8 counterexample: with `result_path = "data.txt"` the file written is
`data.csv` — `Path.with_suffix(".csv")` replaces the existing suffix — not
`data.txt.csv` as the claim states. -/
theorem C8_counterexample :
    writtenPath ⟨10, true, false, printLog, true, "data.txt", true⟩ = "data.csv" ∧
    writtenPath ⟨10, true, false, printLog, true, "data.txt", true⟩ ≠ "data.txt.csv" := by
  refine ⟨?_, ?_⟩ <;> decide

theorem rfindChar_eq_none_of_not_mem (a : Char) (l : List Char) (h : a ∉ l) :
    rfindChar a l = none := by
  induction l with
  | nil => rfl
  | cons c cs ih =>
    have hc : c ≠ a := fun hc => h (hc ▸ List.mem_cons_self c cs)
    have hcs : a ∉ cs := fun hm => h (List.mem_cons_of_mem c hm)
    simp [rfindChar, ih hcs, hc]

theorem rfindChar_append_of_some (a : Char) (l1 l2 : List Char) (i : ℕ)
    (h : rfindChar a l2 = some i) :
    rfindChar a (l1 ++ l2) = some (l1.length + i) := by
  induction l1 with
  | nil => simpa using h
  | cons c cs ih =>
    rw [List.cons_append]
    show (match rfindChar a (cs ++ l2) with
      | some j => some (j + 1)
      | none => if c = a then some 0 else none) = some ((c :: cs).length + i)
    rw [ih]
    simp only [List.length_cons]
    congr 1
    omega

theorem rfindChar_append_of_not_mem (a : Char) (l1 l2 : List Char) (h : a ∉ l2) :
    rfindChar a (l1 ++ l2) = rfindChar a l1 := by
  induction l1 with
  | nil => simpa using rfindChar_eq_none_of_not_mem a l2 h
  | cons c cs ih =>
    rw [List.cons_append]
    show (match rfindChar a (cs ++ l2) with
      | some j => some (j + 1)
      | none => if c = a then some 0 else none) = rfindChar a (c :: cs)
    rw [ih]
    rfl

theorem rfindChar_lt_length (a : Char) (l : List Char) (i : ℕ)
    (h : rfindChar a l = some i) : i < l.length := by
  induction l generalizing i with
  | nil => simp [rfindChar] at h
  | cons c cs ih =>
    simp only [rfindChar] at h
    cases hcs : rfindChar a cs with
    | some j =>
      rw [hcs] at h
      simp only [Option.some.injEq] at h
      have := ih j hcs
      simp only [List.length_cons]
      omega
    | none =>
      rw [hcs] at h
      simp only [List.length_cons]
      by_cases hca : c = a
      · simp [hca] at h
        omega
      · simp [hca] at h

theorem sepSplit_le_length (cs : List Char) : sepSplit cs ≤ cs.length := by
  unfold sepSplit
  cases h : rfindChar '/' cs with
  | none => simp
  | some i =>
    have := rfindChar_lt_length '/' cs i h
    simp
    omega

/-- C8 amended: the file written to is the result path with the suffix of
its final component set to `.csv`: `.csv` is appended when the final
component (nonempty and not `"."`, where Python behaves differently) has no
suffix, while a final component already carrying some other suffix has that
suffix replaced by `.csv` (Python's `Path.with_suffix`), not kept. -/
theorem C8_written_path (cfg : Config) (stem ext : String)
    (hnodot : ('.' : Char) ∉ ext.data) (hnosep : ('/' : Char) ∉ ext.data)
    (hext : ext.data ≠ []) (hstem : baseName stem.data ≠ []) :
    (pySuffixLen (baseName cfg.result_path.data) = 0 →
      baseName cfg.result_path.data ≠ [] → baseName cfg.result_path.data ≠ ['.'] →
      writtenPath cfg = cfg.result_path ++ ".csv") ∧
    (cfg.result_path = stem ++ "." ++ ext → writtenPath cfg = stem ++ ".csv") := by
  constructor
  · intro hk _ _
    apply String.ext
    show cfg.result_path.data.take (sepSplit cfg.result_path.data) ++
      ((baseName cfg.result_path.data).take ((baseName cfg.result_path.data).length -
        pySuffixLen (baseName cfg.result_path.data)) ++ ".csv".data) =
      (cfg.result_path ++ ".csv").data
    rw [hk, Nat.sub_zero, List.take_length, String.data_append, baseName,
      ← List.append_assoc, List.take_append_drop]
  · intro hrp
    have hdata : cfg.result_path.data = stem.data ++ ('.' :: ext.data) := by
      rw [hrp, String.data_append, String.data_append]
      simp
    have hnosep2 : ('/' : Char) ∉ ('.' :: ext.data) := by
      intro hm
      rcases List.mem_cons.mp hm with h | h
      · exact absurd h.symm (by decide)
      · exact hnosep h
    have hsplit : sepSplit (stem.data ++ ('.' :: ext.data)) = sepSplit stem.data := by
      unfold sepSplit
      rw [rfindChar_append_of_not_mem '/' stem.data _ hnosep2]
    have hle : sepSplit stem.data ≤ stem.data.length := sepSplit_le_length stem.data
    have hbase : baseName cfg.result_path.data = baseName stem.data ++ ('.' :: ext.data) := by
      simp only [baseName, hdata, hsplit]
      rw [List.drop_append_of_le_length hle]
    have hfind : rfindChar '.' (baseName cfg.result_path.data) =
        some (baseName stem.data).length := by
      rw [hbase]
      have h0 : rfindChar '.' ('.' :: ext.data) = some 0 := by
        simp [rfindChar, rfindChar_eq_none_of_not_mem '.' ext.data hnodot]
      simpa using rfindChar_append_of_some '.' (baseName stem.data) _ 0 h0
    have hblen : 0 < (baseName stem.data).length := List.length_pos.mpr hstem
    have hextlen : 0 < ext.data.length := List.length_pos.mpr hext
    have hlenb : (baseName cfg.result_path.data).length =
        (baseName stem.data).length + 1 + ext.data.length := by
      rw [hbase]
      simp
      omega
    have hk : pySuffixLen (baseName cfg.result_path.data) = ext.data.length + 1 := by
      simp only [pySuffixLen, hfind]
      have hcond : 0 < (baseName stem.data).length ∧
          (baseName stem.data).length + 1 < (baseName cfg.result_path.data).length :=
        ⟨hblen, by omega⟩
      rw [if_pos hcond]
      omega
    have htake : (baseName cfg.result_path.data).take
        ((baseName cfg.result_path.data).length -
          pySuffixLen (baseName cfg.result_path.data)) = baseName stem.data := by
      have heq : (baseName cfg.result_path.data).length -
          pySuffixLen (baseName cfg.result_path.data) = (baseName stem.data).length := by
        rw [hk]
        omega
      rw [heq, hbase, List.take_left]
    have htakedir : cfg.result_path.data.take (sepSplit cfg.result_path.data) =
        stem.data.take (sepSplit stem.data) := by
      rw [hdata, hsplit, List.take_append_of_le_length hle]
    apply String.ext
    show cfg.result_path.data.take (sepSplit cfg.result_path.data) ++
      ((baseName cfg.result_path.data).take ((baseName cfg.result_path.data).length -
        pySuffixLen (baseName cfg.result_path.data)) ++ ".csv".data) =
      (stem ++ ".csv").data
    rw [htake, htakedir, String.data_append, baseName, ← List.append_assoc,
      List.take_append_drop]

/-- C4: when the lock cannot be acquired within the configured timeout, the
record file is left exactly as it was (no new row, no truncation); with
`ignore_timeout` true the call returns normally, with `ignore_timeout` false
it fails with the `SinkTimeout` error
(`ProfileError "Timed out waiting for csv lock"`). -/
theorem C4_timeout_policy (cfg : Config) (ctx : ExitCtx) (exc : Option ExcInfo)
    (s : TimerState) (file : List Entry) (pn ppn : String)
    (hs : s.started = true) (hlock : ctx.lockOk = false)
    (hpn : ctx.pname = .ok pn) (hppn : ctx.ppname = .ok ppn)
    (hlog : ctx.logOk = true) (hlogt : ctx.logTimeoutOk = true) :
    (exitP cfg ctx exc s file).file = file ∧
    (cfg.ignore_timeout = true → (exitP cfg ctx exc s file).err = none) ∧
    (cfg.ignore_timeout = false →
      (exitP cfg ctx exc s file).err = some "Timed out waiting for csv lock") := by
  refine ⟨?_, ?_, ?_⟩
  · by_cases hig : cfg.ignore_timeout <;>
      simp [exitP, hs, hlock, hpn, hppn, hlog, hlogt, hig]
  · intro hig
    simp [exitP, hs, hlock, hpn, hppn, hlog, hlogt, hig]
  · intro hig
    simp [exitP, hs, hlock, hpn, hppn, hlog, hig]

/-- Concrete instances of `C4_timeout_policy`: with the lock unavailable, a
default (ignoring) profiler returns normally and a non-ignoring one raises,
and in both cases a one-row file is untouched. -/
theorem C4_timeout_policy_witness :
    (exitP ⟨10, true, false, printLog, true, "profile", true⟩
      ⟨0, 1, 42, 7, .ok "python", .ok "bash", .ok "f", true, true, false⟩ none
      ⟨some "x", true, 0, false, 0, 0, false⟩ [Entry.header]).file = [Entry.header] ∧
    (exitP ⟨10, true, false, printLog, true, "profile", true⟩
      ⟨0, 1, 42, 7, .ok "python", .ok "bash", .ok "f", true, true, false⟩ none
      ⟨some "x", true, 0, false, 0, 0, false⟩ [Entry.header]).err = none ∧
    (exitP ⟨10, false, false, printLog, true, "profile", true⟩
      ⟨0, 1, 42, 7, .ok "python", .ok "bash", .ok "f", true, true, false⟩ none
      ⟨some "x", true, 0, false, 0, 0, false⟩ [Entry.header]).err =
        some "Timed out waiting for csv lock" ∧
    (exitP ⟨10, false, false, printLog, true, "profile", true⟩
      ⟨0, 1, 42, 7, .ok "python", .ok "bash", .ok "f", true, true, false⟩ none
      ⟨some "x", true, 0, false, 0, 0, false⟩ [Entry.header]).file = [Entry.header] :=
  ⟨(C4_timeout_policy _ _ none _ _ "python" "bash" rfl rfl rfl rfl rfl rfl).1,
   (C4_timeout_policy _ _ none _ _ "python" "bash" rfl rfl rfl rfl rfl rfl).2.1 rfl,
   (C4_timeout_policy _ _ none _ _ "python" "bash" rfl rfl rfl rfl rfl rfl).2.2 rfl,
   (C4_timeout_policy _ _ none _ _ "python" "bash" rfl rfl rfl rfl rfl rfl).1⟩

theorem sinkAppend_foldl_counts (rs : List Record) :
    ∀ f : List Entry, f ≠ [] →
    (rs.foldl sinkAppend f).countP Entry.isHeader = f.countP Entry.isHeader ∧
    (rs.foldl sinkAppend f).countP (fun e => !e.isHeader) =
      f.countP (fun e => !e.isHeader) + rs.length ∧
    rs.foldl sinkAppend f ≠ [] := by
  induction rs with
  | nil => intro f hf; simp [hf]
  | cons r rest ih =>
    intro f hf
    have hstep : sinkAppend f r = f ++ [Entry.data r] := by simp [sinkAppend, hf]
    have hne : sinkAppend f r ≠ [] := by simp [hstep]
    have h2 := ih (sinkAppend f r) hne
    simp only [List.foldl_cons]
    refine ⟨?_, ?_, h2.2.2⟩
    · rw [h2.1, hstep]
      simp [List.countP_append, Entry.isHeader]
    · rw [h2.2.1, hstep]
      simp [List.countP_append, Entry.isHeader, List.length_cons]
      ring

/-- C5: a successful append leaves every pre-existing row in place and
appends the header plus one data row when the file was empty, or exactly one
data row otherwise; consequently, any non-empty sequence of successful
appends starting from an empty file yields exactly one header row and one
data row per append. -/
theorem C5_append_protocol (cfg : Config) (ctx : ExitCtx) (exc : Option ExcInfo)
    (s : TimerState) (file : List Entry) (pn ppn : String)
    (hs : s.started = true) (hlock : ctx.lockOk = true)
    (hpn : ctx.pname = .ok pn) (hppn : ctx.ppname = .ok ppn) (hlog : ctx.logOk = true) :
    ((exitP cfg ctx exc s file).err = none ∧
     (exitP cfg ctx exc s file).file =
       file ++ (if file = [] then [Entry.header, Entry.data (exitRecord cfg ctx exc s pn ppn)]
                else [Entry.data (exitRecord cfg ctx exc s pn ppn)])) ∧
    (∀ (f : List Entry) (r : Record), ∃ tail, sinkAppend f r = f ++ tail) ∧
    (∀ rs : List Record, rs ≠ [] →
      (rs.foldl sinkAppend []).countP Entry.isHeader = 1 ∧
      (rs.foldl sinkAppend []).countP (fun e => !e.isHeader) = rs.length) := by
  refine ⟨?_, ?_, ?_⟩
  · constructor
    · simp [exitP, hs, hlock, hpn, hppn, hlog]
    · by_cases hf : file = [] <;>
        simp [exitP, hs, hlock, hpn, hppn, hlog, sinkAppend, hf]
  · intro f r
    by_cases hf : f = []
    · exact ⟨[Entry.header, Entry.data r], by simp [sinkAppend, hf]⟩
    · exact ⟨[Entry.data r], by simp [sinkAppend, hf]⟩
  · intro rs hrs
    match rs, hrs with
    | r :: rest, _ =>
      have h0 : sinkAppend [] r = [Entry.header, Entry.data r] := by simp [sinkAppend]
      have h2 := sinkAppend_foldl_counts rest [Entry.header, Entry.data r] (by simp)
      simp only [List.foldl_cons, h0]
      refine ⟨?_, ?_⟩
      · rw [h2.1]
        simp [Entry.isHeader]
      · rw [h2.2.1]
        simp [Entry.isHeader]
        omega

/-- Concrete instance of `C5_append_protocol`: a successful `end()` against
an empty file writes the header and one data row; appends never drop rows
and three sequential appends from empty give one header and three rows. -/
theorem C5_append_protocol_witness :
    ((exitP ⟨10, true, false, printLog, true, "profile", true⟩
      ⟨0, 1, 42, 7, .ok "python", .ok "bash", .ok "f", true, true, true⟩ none
      ⟨some "x", true, 0, false, 0, 0, false⟩ []).err = none ∧
     (exitP ⟨10, true, false, printLog, true, "profile", true⟩
      ⟨0, 1, 42, 7, .ok "python", .ok "bash", .ok "f", true, true, true⟩ none
      ⟨some "x", true, 0, false, 0, 0, false⟩ []).file =
       [] ++ [Entry.header, Entry.data (exitRecord
          ⟨10, true, false, printLog, true, "profile", true⟩
          ⟨0, 1, 42, 7, .ok "python", .ok "bash", .ok "f", true, true, true⟩ none
          ⟨some "x", true, 0, false, 0, 0, false⟩ "python" "bash")]) ∧
    (∃ tail, sinkAppend [Entry.header] ⟨some "y", 1, 1, 1, "a", "b", false, none, none, "t"⟩ =
      [Entry.header] ++ tail) ∧
    (([⟨some "y", 1, 1, 1, "a", "b", false, none, none, "t"⟩,
       ⟨some "z", 2, 1, 1, "a", "b", false, none, none, "t"⟩,
       ⟨some "w", 3, 1, 1, "a", "b", true, some "E", some "e", "t"⟩] :
        List Record).foldl sinkAppend []).countP Entry.isHeader = 1 ∧
    (([⟨some "y", 1, 1, 1, "a", "b", false, none, none, "t"⟩,
       ⟨some "z", 2, 1, 1, "a", "b", false, none, none, "t"⟩,
       ⟨some "w", 3, 1, 1, "a", "b", true, some "E", some "e", "t"⟩] :
        List Record).foldl sinkAppend []).countP (fun e => !e.isHeader) = 3 := by
  have h := C5_append_protocol ⟨10, true, false, printLog, true, "profile", true⟩
    ⟨0, 1, 42, 7, .ok "python", .ok "bash", .ok "f", true, true, true⟩ none
    ⟨some "x", true, 0, false, 0, 0, false⟩ [] "python" "bash" rfl rfl rfl rfl rfl
  refine ⟨⟨h.1.1, by simpa using h.1.2⟩, h.2.1 [Entry.header] _, ?_, ?_⟩
  · exact (h.2.2 _ (by simp)).1
  · simpa using (h.2.2 [⟨some "y", 1, 1, 1, "a", "b", false, none, none, "t"⟩,
       ⟨some "z", 2, 1, 1, "a", "b", false, none, none, "t"⟩,
       ⟨some "w", 3, 1, 1, "a", "b", true, some "E", some "e", "t"⟩] (by simp)).2

/-- C6 counterexample: when the `psutil` name lookup fails, `__exit__`
propagates the lookup's exception and appends nothing — there is no
`"unknown"` fallback, contrary to the claim that the record is still built
and appended. -/
theorem C6_counterexample :
    (exitP ⟨10, true, false, printLog, true, "profile", true⟩
      ⟨0, 1, 42, 7, .error "psutil.NoSuchProcess (pid=42)", .ok "bash", .ok "f", true, true, true⟩
      none ⟨some "x", true, 0, false, 0, 0, false⟩ []).err =
        some "psutil.NoSuchProcess (pid=42)" ∧
    (exitP ⟨10, true, false, printLog, true, "profile", true⟩
      ⟨0, 1, 42, 7, .error "psutil.NoSuchProcess (pid=42)", .ok "bash", .ok "f", true, true, true⟩
      none ⟨some "x", true, 0, false, 0, 0, false⟩ []).file = [] := by
  constructor <;> rfl

/-- C6 amended: the process-name lookups on profiler.py lines 134-135 are
not guarded: if either fails, its exception propagates out of `end()`, the
measurement is aborted and no record is appended; no name field ever falls
back to "unknown". -/
theorem C6_name_lookup_failure_aborts (cfg : Config) (ctx : ExitCtx)
    (exc : Option ExcInfo) (s : TimerState) (file : List Entry) (m : String)
    (hs : s.started = true)
    (hfail : ctx.pname = .error m ∨ ∃ pn, ctx.pname = .ok pn ∧ ctx.ppname = .error m) :
    (exitP cfg ctx exc s file).err = some m ∧
    (exitP cfg ctx exc s file).file = file := by
  rcases hfail with hp | ⟨pn, hp, hpp⟩
  · constructor <;> simp [exitP, hs, hp]
  · constructor <;> simp [exitP, hs, hp, hpp]

/-- Concrete instance of `C6_name_lookup_failure_aborts`: a failing parent
name lookup makes `end()` raise that error and leave the file unwritten. -/
theorem C6_name_lookup_failure_aborts_witness :
    (exitP ⟨10, true, false, printLog, true, "profile", true⟩
      ⟨0, 1, 42, 7, .ok "python", .error "psutil.NoSuchProcess (pid=7)", .ok "f", true, true, true⟩
      none ⟨some "x", true, 0, false, 0, 0, false⟩ [Entry.header]).err =
        some "psutil.NoSuchProcess (pid=7)" ∧
    (exitP ⟨10, true, false, printLog, true, "profile", true⟩
      ⟨0, 1, 42, 7, .ok "python", .error "psutil.NoSuchProcess (pid=7)", .ok "f", true, true, true⟩
      none ⟨some "x", true, 0, false, 0, 0, false⟩ [Entry.header]).file = [Entry.header] :=
  C6_name_lookup_failure_aborts _ _ none _ _ "psutil.NoSuchProcess (pid=7)" rfl
    (Or.inr ⟨"python", rfl, rfl⟩)

/-- Concrete instances of `C8_written_path`: suffix-less final components
("profile", "my.dir/data") gain `.csv`, while paths whose final component
carries a suffix ("data.txt", "my.dir/notes.txt") have it replaced. -/
theorem C8_written_path_witness :
    writtenPath ⟨10, true, false, printLog, true, "profile", true⟩ = "profile" ++ ".csv" ∧
    writtenPath ⟨10, true, false, printLog, true, "my.dir/data", true⟩ =
      "my.dir/data" ++ ".csv" ∧
    writtenPath ⟨10, true, false, printLog, true, "data.txt", true⟩ = "data" ++ ".csv" ∧
    writtenPath ⟨10, true, false, printLog, true, "my.dir/notes.txt", true⟩ =
      "my.dir/notes" ++ ".csv" :=
  ⟨(C8_written_path ⟨10, true, false, printLog, true, "profile", true⟩ "a" "b"
      (by decide) (by decide) (by decide) (by decide)).1
      (by decide) (by decide) (by decide),
   (C8_written_path ⟨10, true, false, printLog, true, "my.dir/data", true⟩ "a" "b"
      (by decide) (by decide) (by decide) (by decide)).1
      (by decide) (by decide) (by decide),
   (C8_written_path ⟨10, true, false, printLog, true, "data.txt", true⟩ "data" "txt"
      (by decide) (by decide) (by decide) (by decide)).2 (by decide),
   (C8_written_path ⟨10, true, false, printLog, true, "my.dir/notes.txt", true⟩
      "my.dir/notes" "txt" (by decide) (by decide) (by decide) (by decide)).2 (by decide)⟩

/-- C2 counterexample: a successful (non-broken) measurement still writes a
populated traceback column — `traceback.format_exc()` returns the string
"NoneType: None\n" when no exception is active — so the error fields are not
all null when `broken` is false, contrary to the claim. -/
theorem C2_counterexample :
    (runWith ⟨10, true, false, printLog, true, "profile", true⟩ 0
      ⟨1, 1, 42, 7, .ok "python", .ok "bash", .ok "f", true, true, true⟩
      ⟨some "x", false, 0, false, 0, 0, false⟩ [] (.ok (0 : ℕ))).2 =
      [Entry.header, Entry.data
        ⟨some "x", 1, 42, 7, "python", "bash", false, none, none, "NoneType: None\n"⟩] ∧
    "NoneType: None\n" ≠ "" := by
  constructor
  · norm_num [runWith, enter, exitP, exitS1, exitS2, exitRecord, measuredTime,
      sinkAppend, format_exc]
  · decide

/-- C2 amended: `broken` is true iff the measured region raised; `error_type`
and `error_value` are populated iff `broken`; the traceback column always
holds `traceback.format_exc()` — the raised error's trace when broken, the
filler string "NoneType: None\n" otherwise; and a region error is re-raised
to the caller after the record is appended. -/
theorem C2_broken_error_fields {α : Type} (cfg : Config) (t0 : ℚ) (ctx : ExitCtx)
    (s : TimerState) (file : List Entry) (pn ppn : String) (v : α) (e : ExcInfo)
    (hns : s.started = false)
    (hpn : ctx.pname = .ok pn) (hppn : ctx.ppname = .ok ppn)
    (hlog : ctx.logOk = true) (hlock : ctx.lockOk = true) :
    (runWith cfg t0 ctx s file (.error e : Except ExcInfo α) =
      (.raised e, sinkAppend file (exitRecord cfg ctx (some e) ((enter t0 s).1) pn ppn)) ∧
     (exitRecord cfg ctx (some e) ((enter t0 s).1) pn ppn).broken = true ∧
     (exitRecord cfg ctx (some e) ((enter t0 s).1) pn ppn).error_type = some e.type ∧
     (exitRecord cfg ctx (some e) ((enter t0 s).1) pn ppn).error_value = some e.value ∧
     (exitRecord cfg ctx (some e) ((enter t0 s).1) pn ppn).traceback = e.trace) ∧
    (runWith cfg t0 ctx s file (.ok v : Except ExcInfo α) =
      (.val v, sinkAppend file (exitRecord cfg ctx none ((enter t0 s).1) pn ppn)) ∧
     (exitRecord cfg ctx none ((enter t0 s).1) pn ppn).broken = false ∧
     (exitRecord cfg ctx none ((enter t0 s).1) pn ppn).error_type = none ∧
     (exitRecord cfg ctx none ((enter t0 s).1) pn ppn).error_value = none ∧
     (exitRecord cfg ctx none ((enter t0 s).1) pn ppn).traceback = "NoneType: None\n") := by
  have hent2 : enter t0 s =
      (⟨s.id, true, t0, s.is_paused, s.paused_time, s.pause_reference, false⟩, none) := by
    simp [enter, hns]
  refine ⟨⟨?_, ?_, ?_, ?_, ?_⟩, ⟨?_, ?_, ?_, ?_, ?_⟩⟩
  · simp only [runWith, hent2]
    simp [exitP, hpn, hppn, hlog, hlock, hent2]
  · simp [exitRecord]
  · simp [exitRecord]
  · simp [exitRecord]
  · simp [exitRecord, format_exc]
  · simp only [runWith, hent2]
    simp [exitP, hpn, hppn, hlog, hlock, hent2]
  · simp [exitRecord]
  · simp [exitRecord]
  · simp [exitRecord]
  · simp [exitRecord, format_exc]

/-- Concrete instance of `C2_broken_error_fields`: a region raising
`ValueError("boom")` yields a broken record with its error fields and the
error re-raised; a successful region yields a non-broken record with null
type/value columns. -/
theorem C2_broken_error_fields_witness :
    (runWith ⟨10, true, false, printLog, true, "profile", true⟩ 0
      ⟨1, 1, 42, 7, .ok "python", .ok "bash", .ok "f", true, true, true⟩
      ⟨some "x", false, 0, false, 0, 0, false⟩ []
      (.error ⟨"ValueError", "boom", "Traceback: boom"⟩ : Except ExcInfo ℕ) =
      (.raised ⟨"ValueError", "boom", "Traceback: boom"⟩,
       sinkAppend [] (exitRecord ⟨10, true, false, printLog, true, "profile", true⟩
         ⟨1, 1, 42, 7, .ok "python", .ok "bash", .ok "f", true, true, true⟩
         (some ⟨"ValueError", "boom", "Traceback: boom"⟩)
         ((enter 0 ⟨some "x", false, 0, false, 0, 0, false⟩).1) "python" "bash"))) ∧
    (exitRecord ⟨10, true, false, printLog, true, "profile", true⟩
      ⟨1, 1, 42, 7, .ok "python", .ok "bash", .ok "f", true, true, true⟩
      (some ⟨"ValueError", "boom", "Traceback: boom"⟩)
      ((enter 0 ⟨some "x", false, 0, false, 0, 0, false⟩).1) "python" "bash").broken = true ∧
    (exitRecord ⟨10, true, false, printLog, true, "profile", true⟩
      ⟨1, 1, 42, 7, .ok "python", .ok "bash", .ok "f", true, true, true⟩ none
      ((enter 0 ⟨some "x", false, 0, false, 0, 0, false⟩).1) "python" "bash").broken = false :=
  ⟨(C2_broken_error_fields ⟨10, true, false, printLog, true, "profile", true⟩ 0
      ⟨1, 1, 42, 7, .ok "python", .ok "bash", .ok "f", true, true, true⟩
      ⟨some "x", false, 0, false, 0, 0, false⟩ [] "python" "bash" (0 : ℕ)
      ⟨"ValueError", "boom", "Traceback: boom"⟩ rfl rfl rfl rfl rfl).1.1,
   (C2_broken_error_fields ⟨10, true, false, printLog, true, "profile", true⟩ 0
      ⟨1, 1, 42, 7, .ok "python", .ok "bash", .ok "f", true, true, true⟩
      ⟨some "x", false, 0, false, 0, 0, false⟩ [] "python" "bash" (0 : ℕ)
      ⟨"ValueError", "boom", "Traceback: boom"⟩ rfl rfl rfl rfl rfl).1.2.1,
   (C2_broken_error_fields ⟨10, true, false, printLog, true, "profile", true⟩ 0
      ⟨1, 1, 42, 7, .ok "python", .ok "bash", .ok "f", true, true, true⟩
      ⟨some "x", false, 0, false, 0, 0, false⟩ [] "python" "bash" (0 : ℕ)
      ⟨"ValueError", "boom", "Traceback: boom"⟩ rfl rfl rfl rfl rfl).2.2.1⟩

/-- C7 counterexample: a wrapping profiler constructed with the explicit id
"custom", wrapping a callable whose qualified name is "MyClass.f", records
the id "custom" for the invocation — not the callable's qualified name — so
the claim that the recorded id is always the wrapped callable's qualified
name fails. -/
theorem C7_counterexample :
    (callWrap ⟨10, true, false, printLog, true, "profile", true⟩
      ⟨some "custom", false, 0, false, 0, 0, false⟩ "MyClass.f").2 = some "custom" ∧
    (wrapperInvoke ((callWrap ⟨10, true, false, printLog, true, "profile", true⟩
        ⟨some "custom", false, 0, false, 0, 0, false⟩ "MyClass.f").2) 0
      ⟨1, 1, 42, 7, .ok "python", .ok "bash", .ok "wrapper", true, true, true⟩
      [] (.ok (0 : ℕ))).2 =
      [Entry.header, Entry.data
        ⟨some "custom", 1, 42, 7, "python", "bash", false, none, none, "NoneType: None\n"⟩] ∧
    (some "custom" : Option String) ≠ some "MyClass.f" := by
  refine ⟨rfl, ?_, by decide⟩
  norm_num [wrapperInvoke, wrapperProfiler, profilerInit, callWrap, runWith, enter,
    exitP, exitS1, exitS2, exitRecord, measuredTime, sinkAppend, format_exc]

theorem wrapperRecord_id (wid : Option String) (t0 : ℚ) (ctx : ExitCtx)
    (exc : Option ExcInfo) (pn ppn : String) :
    (wrapperRecord wid t0 ctx exc pn ppn).id =
      some (wid.getD (autoName ctx.stackName)) := by
  cases wid <;>
    simp [wrapperRecord, exitRecord, exitS2, exitS1, enter, wrapperProfiler, profilerInit]

/-- C7 amended: each invocation of the decorator's wrapper builds a fresh,
not-started profiler (never the wrapping instance); the wrapped callable's
result is returned unchanged on success and its error re-raised after one
record is appended, broken reflecting the outcome.  The id passed to each
per-invocation profiler is the wrapping profiler's id as of wrap time: the
callable's qualified name when the wrapping profiler had no explicit id and
autonaming enabled (the defaults), the wrapping profiler's explicit id when
one was given — in those cases the recorded id is fixed at wrap time — and
`None` when the wrapping profiler had no id with autonaming disabled, in
which case the fresh default profiler autonames from the call stack at each
invocation's completion (the wrapper function's name), not at wrap time. -/
theorem C7_wrapper_fresh_and_transparent {α : Type} (cfg : Config) (s : TimerState)
    (fq : String) (t0 : ℚ) (ctx : ExitCtx) (file : List Entry) (pn ppn : String)
    (v : α) (e : ExcInfo)
    (hpn : ctx.pname = .ok pn) (hppn : ctx.ppname = .ok ppn) (hlock : ctx.lockOk = true) :
    (wrapperProfiler ((callWrap cfg s fq).2)).2 =
      ⟨(callWrap cfg s fq).2, false, 0, false, 0, 0, false⟩ ∧
    wrapperInvoke ((callWrap cfg s fq).2) t0 ctx file (.ok v : Except ExcInfo α) =
      (.val v, sinkAppend file (wrapperRecord ((callWrap cfg s fq).2) t0 ctx none pn ppn)) ∧
    (wrapperRecord ((callWrap cfg s fq).2) t0 ctx none pn ppn).broken = false ∧
    wrapperInvoke ((callWrap cfg s fq).2) t0 ctx file (.error e : Except ExcInfo α) =
      (.raised e,
       sinkAppend file (wrapperRecord ((callWrap cfg s fq).2) t0 ctx (some e) pn ppn)) ∧
    (wrapperRecord ((callWrap cfg s fq).2) t0 ctx (some e) pn ppn).broken = true ∧
    (∀ exc : Option ExcInfo,
      (wrapperRecord ((callWrap cfg s fq).2) t0 ctx exc pn ppn).id =
        some (((callWrap cfg s fq).2).getD (autoName ctx.stackName))) ∧
    (s.id = none → cfg.autonaming = true → (callWrap cfg s fq).2 = some fq) ∧
    (∀ x : String, s.id = some x → (callWrap cfg s fq).2 = some x) ∧
    (s.id = none → cfg.autonaming = false → (callWrap cfg s fq).2 = none) := by
  set wid := (callWrap cfg s fq).2 with hwid
  have hfresh : wrapperProfiler wid =
      (⟨10, true, false, printLog, true, "profile", true⟩,
       ⟨wid, false, 0, false, 0, 0, false⟩) := by
    norm_num [wrapperProfiler, profilerInit, Prod.ext_iff]
  have hent : enter t0 (⟨wid, false, 0, false, 0, 0, false⟩ : TimerState) =
      (⟨wid, true, t0, false, 0, 0, false⟩, none) := by simp [enter]
  refine ⟨?_, ?_, ?_, ?_, ?_, ?_, ?_, ?_, ?_⟩
  · rw [hfresh]
  · simp [wrapperInvoke, hfresh, runWith, hent, exitP, hpn, hppn, hlock,
      wrapperRecord, exitRecord]
  · simp [wrapperRecord, exitRecord]
  · simp [wrapperInvoke, hfresh, runWith, hent, exitP, hpn, hppn, hlock,
      wrapperRecord, exitRecord]
  · simp [wrapperRecord, exitRecord]
  · intro exc
    exact wrapperRecord_id wid t0 ctx exc pn ppn
  · intro h1 h2
    rw [hwid]
    simp [callWrap, h1, h2]
  · intro x hx
    rw [hwid]
    simp [callWrap, hx]
  · intro h1 h2
    rw [hwid]
    simp [callWrap, h1, h2]

/-- Concrete instances of `C7_wrapper_fresh_and_transparent`: wrapping with
the default configuration fixes the id to the callable's qualified name at
wrap time and an invocation returns the callable's value with one record
appended; a wrapping profiler with the explicit id "custom" passes that id;
and one with no id and autonaming disabled passes `None`. -/
theorem C7_wrapper_fresh_and_transparent_witness :
    wrapperInvoke ((callWrap ⟨10, true, false, printLog, true, "profile", true⟩
        ⟨none, false, 0, false, 0, 0, false⟩ "MyClass.f").2) 0
      ⟨1, 1, 42, 7, .ok "python", .ok "bash", .ok "wrapper", true, true, true⟩
      [] (.ok (5 : ℕ)) =
      (.val 5, sinkAppend []
        (wrapperRecord ((callWrap ⟨10, true, false, printLog, true, "profile", true⟩
          ⟨none, false, 0, false, 0, 0, false⟩ "MyClass.f").2) 0
          ⟨1, 1, 42, 7, .ok "python", .ok "bash", .ok "wrapper", true, true, true⟩
          none "python" "bash")) ∧
    (callWrap ⟨10, true, false, printLog, true, "profile", true⟩
      ⟨none, false, 0, false, 0, 0, false⟩ "MyClass.f").2 = some "MyClass.f" ∧
    (callWrap ⟨10, true, false, printLog, true, "profile", true⟩
      ⟨some "custom", false, 0, false, 0, 0, false⟩ "MyClass.f").2 = some "custom" ∧
    (callWrap ⟨10, true, false, printLog, true, "profile", false⟩
      ⟨none, false, 0, false, 0, 0, false⟩ "MyClass.f").2 = none :=
  ⟨(C7_wrapper_fresh_and_transparent ⟨10, true, false, printLog, true, "profile", true⟩
      ⟨none, false, 0, false, 0, 0, false⟩ "MyClass.f" 0
      ⟨1, 1, 42, 7, .ok "python", .ok "bash", .ok "wrapper", true, true, true⟩
      [] "python" "bash" (5 : ℕ) ⟨"E", "v", "t"⟩ rfl rfl rfl).2.1,
   (C7_wrapper_fresh_and_transparent ⟨10, true, false, printLog, true, "profile", true⟩
      ⟨none, false, 0, false, 0, 0, false⟩ "MyClass.f" 0
      ⟨1, 1, 42, 7, .ok "python", .ok "bash", .ok "wrapper", true, true, true⟩
      [] "python" "bash" (5 : ℕ) ⟨"E", "v", "t"⟩ rfl rfl rfl).2.2.2.2.2.2.1 rfl rfl,
   (C7_wrapper_fresh_and_transparent ⟨10, true, false, printLog, true, "profile", true⟩
      ⟨some "custom", false, 0, false, 0, 0, false⟩ "MyClass.f" 0
      ⟨1, 1, 42, 7, .ok "python", .ok "bash", .ok "wrapper", true, true, true⟩
      [] "python" "bash" (5 : ℕ) ⟨"E", "v", "t"⟩ rfl rfl rfl).2.2.2.2.2.2.2.1 "custom" rfl,
   (C7_wrapper_fresh_and_transparent ⟨10, true, false, printLog, true, "profile", false⟩
      ⟨none, false, 0, false, 0, 0, false⟩ "MyClass.f" 0
      ⟨1, 1, 42, 7, .ok "python", .ok "bash", .ok "wrapper", true, true, true⟩
      [] "python" "bash" (5 : ℕ) ⟨"E", "v", "t"⟩ rfl rfl rfl).2.2.2.2.2.2.2.2 rfl rfl⟩

theorem traceState_measured (ctx : ExitCtx) (idv : Option String) (t0 : ℚ)
    (ps : List (ℚ × ℚ)) (op : Option ℚ) :
    (traceState idv t0 ps op).started = true ∧
    measuredTime ctx (traceState idv t0 ps op) =
      ctx.t_mes - t0 - sumIntervals (ps ++ openList op ctx.t_resume) := by
  have h1 : (enter t0 (⟨idv, false, 0, false, 0, 0, false⟩ : TimerState)).1 =
      ⟨idv, true, t0, false, 0, 0, false⟩ := by simp [enter]
  have hrun := runPairs_spec ps (⟨idv, true, t0, false, 0, 0, false⟩ : TimerState) rfl rfl
  cases op with
  | none =>
    refine ⟨?_, ?_⟩
    · simp only [traceState, pauseOpt, h1]
      exact hrun.1
    · simp only [traceState, pauseOpt, h1, openList, List.append_nil, measuredTime,
        exitS1, hrun.2.1]
      simp only [if_neg (by simp : ¬(false = true))]
      rw [hrun.2.2.1, hrun.2.2.2.1]
      simp [sumIntervals]
  | some p =>
    simp only [traceState, pauseOpt, h1]
    set s2 := runPairs (⟨idv, true, t0, false, 0, 0, false⟩ : TimerState) ps with hs2
    have hp : (pause p s2).1 =
        ⟨s2.id, s2.started, s2.reference_time, true, s2.paused_time, p, s2.finished⟩ := by
      simp [pause, hrun.2.1, hrun.1]
    have hr : (resume ctx.t_resume
        (⟨s2.id, s2.started, s2.reference_time, true, s2.paused_time, p, s2.finished⟩ :
          TimerState)).1 =
        ⟨s2.id, s2.started, s2.reference_time, false,
         s2.paused_time + (ctx.t_resume - p), p, s2.finished⟩ := by
      simp [resume, hrun.1]
    refine ⟨?_, ?_⟩
    · rw [hp]
      exact hrun.1
    · simp only [measuredTime, exitS1, hp]
      simp only [if_pos (rfl : (true : Bool) = true), hr]
      rw [hrun.2.2.1, hrun.2.2.2.1]
      simp [sumIntervals_append, sumIntervals, openList]

/-- C1: for a measurement begun at `t0`, with any sequence of completed
pause/resume pairs and optionally one pause still open when `end()` runs
(implicitly resumed at the first clock read of `end()`), under monotone
non-decreasing clock reads the elapsed time written into the record equals
the wall time from begin to end minus the total of all pause intervals, and
is non-negative; the record is appended to the file. -/
theorem C1_elapsed_pause_accounting (cfg : Config) (ctx : ExitCtx)
    (exc : Option ExcInfo) (idv : Option String) (t0 : ℚ) (ps : List (ℚ × ℚ))
    (op : Option ℚ) (file : List Entry) (pn ppn : String)
    (hpn : ctx.pname = .ok pn) (hppn : ctx.ppname = .ok ppn)
    (hlog : ctx.logOk = true) (hlock : ctx.lockOk = true)
    (hmono : monoFrom t0 (ps ++ openList op ctx.t_resume) ctx.t_mes) :
    (exitP cfg ctx exc (traceState idv t0 ps op) file).err = none ∧
    (exitP cfg ctx exc (traceState idv t0 ps op) file).file =
      sinkAppend file (exitRecord cfg ctx exc (traceState idv t0 ps op) pn ppn) ∧
    (exitRecord cfg ctx exc (traceState idv t0 ps op) pn ppn).time =
      ctx.t_mes - t0 - sumIntervals (ps ++ openList op ctx.t_resume) ∧
    0 ≤ (exitRecord cfg ctx exc (traceState idv t0 ps op) pn ppn).time := by
  have ht := traceState_measured ctx idv t0 ps op
  have hle := sumIntervals_le_of_monoFrom (ps ++ openList op ctx.t_resume) t0
    ctx.t_mes hmono
  have htime : (exitRecord cfg ctx exc (traceState idv t0 ps op) pn ppn).time =
      ctx.t_mes - t0 - sumIntervals (ps ++ openList op ctx.t_resume) := by
    simp only [exitRecord]
    exact ht.2
  refine ⟨?_, ?_, htime, ?_⟩
  · simp [exitP, ht.1, hpn, hppn, hlog, hlock]
  · simp [exitP, ht.1, hpn, hppn, hlog, hlock]
  · rw [htime]
    linarith

/-- Concrete instance of `C1_elapsed_pause_accounting`: begin at 0, a
completed pause from 1 to 2, a pause opened at 3 and still open at `end()`
(whose clock reads are 4 and 5): elapsed is 5 − 0 − ((2−1) + (4−3)) = 3 ≥ 0
and the record is written. -/
theorem C1_elapsed_pause_accounting_witness :
    (exitP ⟨10, true, false, printLog, true, "profile", true⟩
      ⟨4, 5, 42, 7, .ok "python", .ok "bash", .ok "f", true, true, true⟩ none
      (traceState (some "job") 0 [(1, 2)] (some 3)) []).err = none ∧
    (exitP ⟨10, true, false, printLog, true, "profile", true⟩
      ⟨4, 5, 42, 7, .ok "python", .ok "bash", .ok "f", true, true, true⟩ none
      (traceState (some "job") 0 [(1, 2)] (some 3)) []).file =
      sinkAppend [] (exitRecord ⟨10, true, false, printLog, true, "profile", true⟩
        ⟨4, 5, 42, 7, .ok "python", .ok "bash", .ok "f", true, true, true⟩ none
        (traceState (some "job") 0 [(1, 2)] (some 3)) "python" "bash") ∧
    (exitRecord ⟨10, true, false, printLog, true, "profile", true⟩
      ⟨4, 5, 42, 7, .ok "python", .ok "bash", .ok "f", true, true, true⟩ none
      (traceState (some "job") 0 [(1, 2)] (some 3)) "python" "bash").time =
      5 - 0 - sumIntervals ([(1, 2)] ++ openList (some 3) 4) ∧
    0 ≤ (exitRecord ⟨10, true, false, printLog, true, "profile", true⟩
      ⟨4, 5, 42, 7, .ok "python", .ok "bash", .ok "f", true, true, true⟩ none
      (traceState (some "job") 0 [(1, 2)] (some 3)) "python" "bash").time :=
  C1_elapsed_pause_accounting ⟨10, true, false, printLog, true, "profile", true⟩
    ⟨4, 5, 42, 7, .ok "python", .ok "bash", .ok "f", true, true, true⟩ none
    (some "job") 0 [(1, 2)] (some 3) [] "python" "bash" rfl rfl rfl rfl
    (by norm_num [monoFrom, openList])

end MPProfiler
